import Mathlib

/-!
Verification of the ledger-entry resolution pipeline of
`src/ripple/rpc/handlers/LedgerEntry.cpp` (functions `doLedgerEntry` and
`doLedgerEntryGrpc`).

The embedding translates the classification / validation / resolution code
directly.  External collaborators (base58 account decoding, the `keylet`
key-derivation functions, currency decoding) are injected through an `Env`
record, mirroring the fact that the handler only observes them through their
results.  The hex codecs, the public-key-encoding test and the ledger store
interface are modelled concretely so that runs on concrete requests evaluate.
-/

namespace LedgerEntry

/-- Ledger object type tags used by the handler (`ltANY` is the wildcard). -/
inductive LedgerEntryType
  | ltANY
  | ltACCOUNT_ROOT
  | ltCHECK
  | ltDEPOSIT_PREAUTH
  | ltDIR_NODE
  | ltESCROW
  | ltEMITTED_TXN
  | ltIMPORT_VLSEQ
  | ltOFFER
  | ltPAYCHAN
  | ltURI_TOKEN
  | ltRIPPLE_STATE
  | ltTICKET
  | ltHOOK
  | ltHOOK_DEFINITION
  | ltHOOK_STATE
  | ltNFTOKEN_PAGE
deriving DecidableEq, Repr

/-- The 17 recognized locator shapes of the textual protocol. -/
inductive ShapeKind
  | byIndex
  | accountRoot
  | check
  | depositPreauth
  | directory
  | escrow
  | emittedTxn
  | importVlseq
  | offer
  | paymentChannel
  | uriToken
  | rippleState
  | ticket
  | hook
  | hookDefinition
  | hookState
  | nftPage
deriving DecidableEq, Repr

/-- JSON-like values, the shape of `Json::Value` as the handler consumes it. -/
inductive JVal
  | null
  | str (s : String)
  | num (n : Int)
  | boolean (b : Bool)
  | arr (elems : List JVal)
  | obj (fields : List (String × JVal))

/-- `Json::Value::isObject`. -/
def JVal.isObject : JVal → Bool
  | .obj _ => true
  | _ => false

/-- `Json::Value::isString`. -/
def JVal.isString : JVal → Bool
  | .str _ => true
  | _ => false

/-- `Json::Value::isArray`. -/
def JVal.isArray : JVal → Bool
  | .arr _ => true
  | _ => false

/-- `Json::Value::isNull`. -/
def JVal.isNull : JVal → Bool
  | .null => true
  | _ => false

/-- `Json::Value::isIntegral` (an integer-typed value). -/
def JVal.isIntegral : JVal → Bool
  | .num _ => true
  | _ => false

/-- `Json::Value::isMember`: field presence on an object, false otherwise. -/
def JVal.isMember (v : JVal) (k : String) : Bool :=
  match v with
  | .obj fs => fs.any (fun kv => kv.1 == k)
  | _ => false

/-- `Json::Value::operator[]` on an object: the first binding of the key,
`null` when absent or when the value is not an object. -/
def JVal.getJ (v : JVal) (k : String) : JVal :=
  match v with
  | .obj fs =>
      match fs.find? (fun kv => kv.1 == k) with
      | some kv => kv.2
      | none => .null
  | _ => .null

/-- `Json::Value::asString` on the convertible types (string, null, bool).
On numeric, array and object values the source raises a conversion error;
no request considered in the theorems below reaches such a conversion, and
the embedding returns the empty string there. -/
def JVal.asString : JVal → String
  | .str s => s
  | .null => ""
  | .boolean b => cond b "true" "false"
  | _ => ""

/-- `Json::Value::asUInt` on an integral value. -/
def JVal.asUInt : JVal → Nat
  | .num n => n.toNat
  | _ => 0

/-- `Json::Value::asBool`. -/
def JVal.asBool : JVal → Bool
  | .boolean b => b
  | .num n => n != 0
  | _ => false

/-- `Json::Value::size` (array/object length). -/
def JVal.size : JVal → Nat
  | .arr xs => xs.length
  | .obj fs => fs.length
  | _ => 0

/-- Array indexing `v[i]`; `null` out of range or on non-arrays. -/
def JVal.atIndex (v : JVal) (i : Nat) : JVal :=
  match v with
  | .arr xs => xs.getD i .null
  | _ => .null

/-- Value of one hex digit (digit, upper or lower letter), by code point. -/
def hexDigitVal (c : Char) : Option Nat :=
  let n := c.toNat
  if 48 ≤ n ∧ n ≤ 57 then some (n - 48)
  else if 65 ≤ n ∧ n ≤ 70 then some (n - 55)
  else if 97 ≤ n ∧ n ≤ 102 then some (n - 87)
  else none

/-- Big-endian accumulation of hex digits; fails on any non-hex character. -/
def parseHexChars (digits : List Char) : Option Nat :=
  digits.foldl
    (fun acc ch => acc.bind (fun a => (hexDigitVal ch).map (fun d => a * 16 + d)))
    (some 0)

/-- Modelled from the spec: `base_uint<256>::parseHex`, the hex codec turning
a locator string into a fixed-width 256-bit `CanonicalKey` (`uint256` is not
part of the sources under review).  It accepts exactly 64 hex digits and
fails otherwise. -/
def parseHex256 (s : String) : Option Nat :=
  if s.length = 64 then parseHexChars s.data else none

/-- Modelled from the spec: `strUnHex`, the hex-to-binary blob codec (not part
of the sources under review).  Decodes pairs of hex digits to bytes; fails on
odd length or non-hex characters. -/
def unhexPairs : List Char → Option (List Nat)
  | [] => some []
  | [_] => none
  | c1 :: c2 :: rest =>
      match hexDigitVal c1, hexDigitVal c2, unhexPairs rest with
      | some h, some l, some bs => some ((h * 16 + l) :: bs)
      | _, _, _ => none

/-- `strUnHex` over a string. -/
def strUnHex (s : String) : Option (List Nat) := unhexPairs s.data

/-- Public-key algorithms recognized by the codec. -/
inductive KeyType
  | secp256k1
  | ed25519
deriving DecidableEq, Repr

/-- Modelled from the spec: `publicKeyType`, the test that a byte blob is a
recognized public-key encoding (not part of the sources under review): a
33-byte blob tagged 0x02/0x03 (secp256k1) or 0xED (ed25519). -/
def publicKeyType (bytes : List Nat) : Option KeyType :=
  if bytes.length = 33 then
    match bytes.head? with
    | some 0xED => some .ed25519
    | some 2 => some .secp256k1
    | some 3 => some .secp256k1
    | _ => none
  else none

/-- One hex digit rendered as an uppercase character, by code point. -/
def hexDigitChar (n : Nat) : Char :=
  Char.ofNat (if n < 10 then 48 + n else 55 + n)

/-- Modelled from the spec: `to_string` on a 256-bit key — 64 uppercase hex
digits, most significant first. -/
def toHex64 (n : Nat) : String :=
  String.mk ((List.range 64).map (fun i => hexDigitChar (n / 16 ^ (63 - i) % 16)))

/-- Modelled from the spec: `strHex` on a byte blob. -/
def strHexBytes (bs : List Nat) : String :=
  String.mk
    (bs.foldr (fun b acc => hexDigitChar (b / 16 % 16) :: hexDigitChar (b % 16) :: acc) [])

/-- A stored ledger object as the handler observes it: its runtime type
(`getType`), its structured rendering (`getJson`) and its canonical binary
serialization (`add` into a `Serializer`). -/
structure SLE where
  type : LedgerEntryType
  jsonRep : JVal
  serial : List Nat

/-- The point-in-time ledger snapshot: `read` by canonical key. -/
def Store := Nat → Option SLE

/-- External collaborators of the classifier: the base58 account codec, the
currency codec and the `keylet` key-derivation functions.  Account identifiers
and canonical keys are abstracted as naturals. -/
structure Env where
  parseBase58 : String → Option Nat
  toCurrency : String → Option Nat
  keyletAccount : Nat → Nat
  keyletDepositPreauth : Nat → Nat → Nat
  keyletPage : Nat → Nat → Nat
  keyletOwnerDir : Nat → Nat
  keyletEscrow : Nat → Nat → Nat
  keyletEmittedTxn : Nat → Nat
  keyletImportVlseq : List Nat → Nat
  keyletOffer : Nat → Nat → Nat
  keyletUritoken : Nat → String → Nat
  keyletLine : Nat → Nat → Nat → Nat
  getTicketIndex : Nat → Nat → Nat
  keyletHook : Nat → Nat
  keyletHookDefinition : Nat → Nat
  keyletHookState : Nat → Nat → Nat → Nat

/-- Classifier state after one shape branch has run: `uNodeIndex`,
`expectedType`, and the error string written into `jvResult`, if any. -/
structure CState where
  key : Nat
  expected : LedgerEntryType
  err : Option String
deriving DecidableEq, Repr

/-- The textual-protocol response fields this handler writes. -/
structure Response where
  error : Option String := none
  node : Option JVal := none
  node_binary : Option String := none
  index : Option String := none

/-- `index` branch: parse the hex key directly; `expectedType` stays `ltANY`. -/
def indexBranch (v : JVal) : CState :=
  match parseHex256 v.asString with
  | some k => ⟨k, .ltANY, none⟩
  | none => ⟨0, .ltANY, some "malformedRequest"⟩

/-- `account_root` branch. -/
def accountRootBranch (env : Env) (v : JVal) : CState :=
  match env.parseBase58 v.asString with
  | none => ⟨0, .ltACCOUNT_ROOT, some "malformedAddress"⟩
  | some account =>
      if account = 0 then ⟨0, .ltACCOUNT_ROOT, some "malformedAddress"⟩
      else ⟨env.keyletAccount account, .ltACCOUNT_ROOT, none⟩

/-- `check` branch. -/
def checkBranch (v : JVal) : CState :=
  match parseHex256 v.asString with
  | some k => ⟨k, .ltCHECK, none⟩
  | none => ⟨0, .ltCHECK, some "malformedRequest"⟩

/-- `deposit_preauth` branch: hex scalar, or object with `owner` and
`authorized`. -/
def depositPreauthBranch (env : Env) (v : JVal) : CState :=
  if !v.isObject then
    if !v.isString then ⟨0, .ltDEPOSIT_PREAUTH, some "malformedRequest"⟩
    else
      match parseHex256 v.asString with
      | some k => ⟨k, .ltDEPOSIT_PREAUTH, none⟩
      | none => ⟨0, .ltDEPOSIT_PREAUTH, some "malformedRequest"⟩
  else if !v.isMember "owner" || !(v.getJ "owner").isString
      || !v.isMember "authorized" || !(v.getJ "authorized").isString then
    ⟨0, .ltDEPOSIT_PREAUTH, some "malformedRequest"⟩
  else
    match env.parseBase58 (v.getJ "owner").asString with
    | none => ⟨0, .ltDEPOSIT_PREAUTH, some "malformedOwner"⟩
    | some owner =>
        match env.parseBase58 (v.getJ "authorized").asString with
        | none => ⟨0, .ltDEPOSIT_PREAUTH, some "malformedAuthorized"⟩
        | some authorized =>
            ⟨env.keyletDepositPreauth owner authorized, .ltDEPOSIT_PREAUTH, none⟩

/-- `directory` branch: null check, hex scalar, or object with `sub_index`
and mutually exclusive `dir_root` / `owner`. -/
def directoryBranch (env : Env) (v : JVal) : CState :=
  if v.isNull then ⟨0, .ltDIR_NODE, some "malformedRequest"⟩
  else if !v.isObject then
    match parseHex256 v.asString with
    | some k => ⟨k, .ltDIR_NODE, none⟩
    | none => ⟨0, .ltDIR_NODE, some "malformedRequest"⟩
  else if v.isMember "sub_index" && !(v.getJ "sub_index").isIntegral then
    ⟨0, .ltDIR_NODE, some "malformedRequest"⟩
  else
    let uSubIndex := if v.isMember "sub_index" then (v.getJ "sub_index").asUInt else 0
    if v.isMember "dir_root" then
      if v.isMember "owner" then ⟨0, .ltDIR_NODE, some "malformedRequest"⟩
      else
        match parseHex256 (v.getJ "dir_root").asString with
        | none => ⟨0, .ltDIR_NODE, some "malformedRequest"⟩
        | some uDirRoot => ⟨env.keyletPage uDirRoot uSubIndex, .ltDIR_NODE, none⟩
    else if v.isMember "owner" then
      match env.parseBase58 (v.getJ "owner").asString with
      | none => ⟨0, .ltDIR_NODE, some "malformedAddress"⟩
      | some ownerID =>
          ⟨env.keyletPage (env.keyletOwnerDir ownerID) uSubIndex, .ltDIR_NODE, none⟩
    else ⟨0, .ltDIR_NODE, some "malformedRequest"⟩

/-- `escrow` branch: hex scalar, or object with `owner` and integral `seq`. -/
def escrowBranch (env : Env) (v : JVal) : CState :=
  if !v.isObject then
    match parseHex256 v.asString with
    | some k => ⟨k, .ltESCROW, none⟩
    | none => ⟨0, .ltESCROW, some "malformedRequest"⟩
  else if !v.isMember "owner" || !v.isMember "seq" || !(v.getJ "seq").isIntegral then
    ⟨0, .ltESCROW, some "malformedRequest"⟩
  else
    match env.parseBase58 (v.getJ "owner").asString with
    | none => ⟨0, .ltESCROW, some "malformedOwner"⟩
    | some id => ⟨env.keyletEscrow id (v.getJ "seq").asUInt, .ltESCROW, none⟩

/-- `emitted_txn` branch.  The source applies `keylet::emittedTxn` to the
locally parsed value even when hex parsing failed (leaving it zero), and does
nothing at all when the value is an object. -/
def emittedTxnBranch (env : Env) (v : JVal) : CState :=
  if !v.isObject then
    match parseHex256 v.asString with
    | some k => ⟨env.keyletEmittedTxn k, .ltEMITTED_TXN, none⟩
    | none => ⟨env.keyletEmittedTxn 0, .ltEMITTED_TXN, some "malformedRequest"⟩
  else ⟨0, .ltEMITTED_TXN, none⟩

/-- `import_vlseq` branch: hex scalar, or object with a `public_key` string.
In the object path the source computes `strUnHex(public_key)` and immediately
dereferences the resulting optional with no engagement check; when the string
is not valid hex that dereference is undefined behavior, which the embedding
records as `none`. -/
def importVlseqBranch (env : Env) (v : JVal) : Option CState :=
  if !v.isObject then
    some
      (match parseHex256 v.asString with
      | some k => ⟨k, .ltIMPORT_VLSEQ, none⟩
      | none => ⟨0, .ltIMPORT_VLSEQ, some "malformedRequest"⟩)
  else if !v.isMember "public_key" || !(v.getJ "public_key").isString then
    some ⟨0, .ltIMPORT_VLSEQ, some "malformedRequest"⟩
  else
    match strUnHex (v.getJ "public_key").asString with
    | none => none
    | some pkBytes =>
        if (publicKeyType pkBytes).isNone then
          some ⟨0, .ltIMPORT_VLSEQ, some "malformedRequest"⟩
        else some ⟨env.keyletImportVlseq pkBytes, .ltIMPORT_VLSEQ, none⟩

/-- `offer` branch: hex scalar, or object with `account` and integral `seq`. -/
def offerBranch (env : Env) (v : JVal) : CState :=
  if !v.isObject then
    match parseHex256 v.asString with
    | some k => ⟨k, .ltOFFER, none⟩
    | none => ⟨0, .ltOFFER, some "malformedRequest"⟩
  else if !v.isMember "account" || !v.isMember "seq" || !(v.getJ "seq").isIntegral then
    ⟨0, .ltOFFER, some "malformedRequest"⟩
  else
    match env.parseBase58 (v.getJ "account").asString with
    | none => ⟨0, .ltOFFER, some "malformedAddress"⟩
    | some id => ⟨env.keyletOffer id (v.getJ "seq").asUInt, .ltOFFER, none⟩

/-- `payment_channel` branch: hex scalar only. -/
def paymentChannelBranch (v : JVal) : CState :=
  match parseHex256 v.asString with
  | some k => ⟨k, .ltPAYCHAN, none⟩
  | none => ⟨0, .ltPAYCHAN, some "malformedRequest"⟩

/-- `uri_token` branch: hex scalar, or object with `account` and `uri`. -/
def uriTokenBranch (env : Env) (v : JVal) : CState :=
  if !v.isObject then
    match parseHex256 v.asString with
    | some k => ⟨k, .ltURI_TOKEN, none⟩
    | none => ⟨0, .ltURI_TOKEN, some "malformedRequest"⟩
  else if !v.isMember "account" || !v.isMember "uri" then
    ⟨0, .ltURI_TOKEN, some "malformedRequest"⟩
  else
    match env.parseBase58 (v.getJ "account").asString with
    | none => ⟨0, .ltURI_TOKEN, some "malformedAddress"⟩
    | some id => ⟨env.keyletUritoken id (v.getJ "uri").asString, .ltURI_TOKEN, none⟩

/-- `ripple_state` branch: object with `currency` and an `accounts` array of
two distinct strings; both must decode and the currency must decode. -/
def rippleStateBranch (env : Env) (v : JVal) : CState :=
  if !v.isObject || !v.isMember "currency" || !v.isMember "accounts"
      || !(v.getJ "accounts").isArray || (v.getJ "accounts").size != 2
      || !((v.getJ "accounts").atIndex 0).isString
      || !((v.getJ "accounts").atIndex 1).isString
      || ((v.getJ "accounts").atIndex 0).asString
          == ((v.getJ "accounts").atIndex 1).asString then
    ⟨0, .ltRIPPLE_STATE, some "malformedRequest"⟩
  else
    match env.parseBase58 ((v.getJ "accounts").atIndex 0).asString,
        env.parseBase58 ((v.getJ "accounts").atIndex 1).asString with
    | some id1, some id2 =>
        match env.toCurrency (v.getJ "currency").asString with
        | none => ⟨0, .ltRIPPLE_STATE, some "malformedCurrency"⟩
        | some cur => ⟨env.keyletLine id1 id2 cur, .ltRIPPLE_STATE, none⟩
    | _, _ => ⟨0, .ltRIPPLE_STATE, some "malformedAddress"⟩

/-- `ticket` branch: hex scalar, or object with `account` and integral
`ticket_seq`. -/
def ticketBranch (env : Env) (v : JVal) : CState :=
  if !v.isObject then
    match parseHex256 v.asString with
    | some k => ⟨k, .ltTICKET, none⟩
    | none => ⟨0, .ltTICKET, some "malformedRequest"⟩
  else if !v.isMember "account" || !v.isMember "ticket_seq"
      || !(v.getJ "ticket_seq").isIntegral then
    ⟨0, .ltTICKET, some "malformedRequest"⟩
  else
    match env.parseBase58 (v.getJ "account").asString with
    | none => ⟨0, .ltTICKET, some "malformedAddress"⟩
    | some id => ⟨env.getTicketIndex id (v.getJ "ticket_seq").asUInt, .ltTICKET, none⟩

/-- `hook` branch: hex scalar, or object with `account`. -/
def hookBranch (env : Env) (v : JVal) : CState :=
  if !v.isObject then
    match parseHex256 v.asString with
    | some k => ⟨k, .ltHOOK, none⟩
    | none => ⟨0, .ltHOOK, some "malformedRequest"⟩
  else if !v.isMember "account" then ⟨0, .ltHOOK, some "malformedRequest"⟩
  else
    match env.parseBase58 (v.getJ "account").asString with
    | none => ⟨0, .ltHOOK, some "malformedAddress"⟩
    | some id => ⟨env.keyletHook id, .ltHOOK, none⟩

/-- `hook_definition` branch: hex scalar only (an object is malformed), the
parsed value fed through `keylet::hookDefinition`. -/
def hookDefinitionBranch (env : Env) (v : JVal) : CState :=
  if v.isObject then ⟨0, .ltHOOK_DEFINITION, some "malformedRequest"⟩
  else
    match parseHex256 v.asString with
    | none => ⟨0, .ltHOOK_DEFINITION, some "malformedRequest"⟩
    | some k => ⟨env.keyletHookDefinition k, .ltHOOK_DEFINITION, none⟩

/-- `hook_state` branch: object with string `account`, `key` and
`namespace_id`. -/
def hookStateBranch (env : Env) (v : JVal) : CState :=
  if !v.isObject || !v.isMember "account" || !v.isMember "key"
      || !v.isMember "namespace_id" || !(v.getJ "account").isString
      || !(v.getJ "key").isString || !(v.getJ "namespace_id").isString then
    ⟨0, .ltHOOK_STATE, some "malformedRequest"⟩
  else
    match env.parseBase58 (v.getJ "account").asString with
    | none => ⟨0, .ltHOOK_STATE, some "malformedAddress"⟩
    | some account =>
        match parseHex256 (v.getJ "key").asString with
        | none => ⟨0, .ltHOOK_STATE, some "malformedRequest"⟩
        | some uNodeKey =>
            match parseHex256 (v.getJ "namespace_id").asString with
            | none => ⟨0, .ltHOOK_STATE, some "malformedRequest"⟩
            | some uNameSpace =>
                ⟨env.keyletHookState account uNodeKey uNameSpace, .ltHOOK_STATE, none⟩

/-- `nft_page` branch: the value must be a plain string holding the hex key. -/
def nftPageBranch (v : JVal) : CState :=
  if v.isString then
    match parseHex256 v.asString with
    | some k => ⟨k, .ltNFTOKEN_PAGE, none⟩
    | none => ⟨0, .ltNFTOKEN_PAGE, some "malformedRequest"⟩
  else ⟨0, .ltNFTOKEN_PAGE, some "malformedRequest"⟩

/-- Legacy positional fallback: a `params` array of exactly one string,
hex-decoded directly; otherwise `unknownOption`. -/
def legacyBranch (req : JVal) : CState :=
  if req.isMember "params" && (req.getJ "params").isArray
      && (req.getJ "params").size == 1 && ((req.getJ "params").atIndex 0).isString then
    match parseHex256 ((req.getJ "params").atIndex 0).asString with
    | some k => ⟨k, .ltANY, none⟩
    | none => ⟨0, .ltANY, some "malformedRequest"⟩
  else ⟨0, .ltANY, some "unknownOption"⟩

/-- The shape-trigger fields in the order of the source's if/else chain. -/
def triggerOrder : List String :=
  ["index", "account_root", "check", "deposit_preauth", "directory", "escrow",
   "emitted_txn", "import_vlseq", "offer", "payment_channel", "uri_token",
   "ripple_state", "ticket", "hook", "hook_definition", "hook_state", "nft_page"]

/-- The first recognized trigger field present in the request, if any. -/
def firstTrigger (req : JVal) : Option String :=
  triggerOrder.find? (fun t => req.isMember t)

/-- Branch body selected by a trigger field. -/
def branchFor (env : Env) : String → JVal → Option CState
  | "index" => fun v => some (indexBranch v)
  | "account_root" => fun v => some (accountRootBranch env v)
  | "check" => fun v => some (checkBranch v)
  | "deposit_preauth" => fun v => some (depositPreauthBranch env v)
  | "directory" => fun v => some (directoryBranch env v)
  | "escrow" => fun v => some (escrowBranch env v)
  | "emitted_txn" => fun v => some (emittedTxnBranch env v)
  | "import_vlseq" => fun v => importVlseqBranch env v
  | "offer" => fun v => some (offerBranch env v)
  | "payment_channel" => fun v => some (paymentChannelBranch v)
  | "uri_token" => fun v => some (uriTokenBranch env v)
  | "ripple_state" => fun v => some (rippleStateBranch env v)
  | "ticket" => fun v => some (ticketBranch env v)
  | "hook" => fun v => some (hookBranch env v)
  | "hook_definition" => fun v => some (hookDefinitionBranch env v)
  | "hook_state" => fun v => some (hookStateBranch env v)
  | "nft_page" => fun v => some (nftPageBranch v)
  | _ => fun _ => some ⟨0, .ltANY, none⟩

/-- The classification / validation section of `doLedgerEntry`: dispatch on
the first present trigger field (the source's if/else chain), falling back to
the legacy positional form.  `none` records the undefined optional
dereference in the `import_vlseq` object path. -/
def classify (env : Env) (req : JVal) : Option CState :=
  match firstTrigger req with
  | some t => branchFor env t (req.getJ t)
  | none => some (legacyBranch req)

/-- The resolution section of `doLedgerEntry`: when the key is nonzero, read
the snapshot, report `entryNotFound` / `unexpectedLedgerType`, or render the
object (binary or structured); a zero key leaves the response untouched. -/
def resolveStep (params : JVal) (store : Store) (st : CState) (jv0 : Response) :
    Response :=
  if st.key ≠ 0 then
    let bNodeBinary : Bool :=
      if params.isMember "binary" then (params.getJ "binary").asBool else false
    match store st.key with
    | none => { jv0 with error := some "entryNotFound" }
    | some sleNode =>
        if st.expected ≠ .ltANY ∧ st.expected ≠ sleNode.type then
          { jv0 with error := some "unexpectedLedgerType" }
        else if bNodeBinary then
          { jv0 with
            node_binary := some (strHexBytes sleNode.serial)
            index := some (toHex64 st.key) }
        else
          { jv0 with node := some sleNode.jsonRep, index := some (toHex64 st.key) }
  else jv0

/-- `doLedgerEntry` after ledger selection has succeeded: classify, then
resolve against the snapshot; `none` records the undefined behavior of the
`import_vlseq` object path on non-hex input. -/
def doLedgerEntry (env : Env) (params : JVal) (store : Store) : Option Response :=
  (classify env params).map (fun st => resolveStep params store st { error := st.err })

/-- Trigger field of each shape. -/
def triggerField : ShapeKind → String
  | .byIndex => "index"
  | .accountRoot => "account_root"
  | .check => "check"
  | .depositPreauth => "deposit_preauth"
  | .directory => "directory"
  | .escrow => "escrow"
  | .emittedTxn => "emitted_txn"
  | .importVlseq => "import_vlseq"
  | .offer => "offer"
  | .paymentChannel => "payment_channel"
  | .uriToken => "uri_token"
  | .rippleState => "ripple_state"
  | .ticket => "ticket"
  | .hookDefinition => "hook_definition"
  | .hookState => "hook_state"
  | .hook => "hook"
  | .nftPage => "nft_page"

/-- Expected ledger-object type each shape records (`expectedType` in the
source). -/
def expectedOf : ShapeKind → LedgerEntryType
  | .byIndex => .ltANY
  | .accountRoot => .ltACCOUNT_ROOT
  | .check => .ltCHECK
  | .depositPreauth => .ltDEPOSIT_PREAUTH
  | .directory => .ltDIR_NODE
  | .escrow => .ltESCROW
  | .emittedTxn => .ltEMITTED_TXN
  | .importVlseq => .ltIMPORT_VLSEQ
  | .offer => .ltOFFER
  | .paymentChannel => .ltPAYCHAN
  | .uriToken => .ltURI_TOKEN
  | .rippleState => .ltRIPPLE_STATE
  | .ticket => .ltTICKET
  | .hookDefinition => .ltHOOK_DEFINITION
  | .hookState => .ltHOOK_STATE
  | .hook => .ltHOOK
  | .nftPage => .ltNFTOKEN_PAGE

/-- Sub-fields a shape's object form requires to be present (each absence is
checked explicitly by the corresponding branch before any decoding).  The
directory shape's `dir_root` / `owner` exclusive-or requirement is stated
separately. -/
def requiredSubfields : ShapeKind → List String
  | .depositPreauth => ["owner", "authorized"]
  | .escrow => ["owner", "seq"]
  | .importVlseq => ["public_key"]
  | .offer => ["account", "seq"]
  | .uriToken => ["account", "uri"]
  | .rippleState => ["currency", "accounts"]
  | .ticket => ["account", "ticket_seq"]
  | .hook => ["account"]
  | .hookState => ["account", "key", "namespace_id"]
  | _ => []

/-- Keep predicate used to erase from a request every trigger field other
than `t` together with the legacy `params` field. -/
def keepField (t k : String) : Bool :=
  (k == t) || (!(decide (k ∈ triggerOrder)) && !(k == "params"))

/-- The request with every trigger field other than `t`, and the legacy
`params` field, removed. -/
def stripExtra (req : JVal) (t : String) : JVal :=
  match req with
  | .obj fs => .obj (fs.filter (fun kv => keepField t kv.1))
  | v => v

/-! ### The binary (gRPC) entry point -/

/-- gRPC status codes used by `doLedgerEntryGrpc`. -/
inductive StatusCode
  | OK
  | INVALID_ARGUMENT
  | NOT_FOUND
deriving DecidableEq, Repr

/-- A gRPC status: code plus message. -/
structure GrpcStatus where
  code : StatusCode
  msg : String
deriving DecidableEq, Repr

/-- `GetLedgerEntryRequest`: a raw key (byte string) and an opaque ledger
selector, echoed back on success. -/
structure GrpcRequest where
  key : List Nat
  ledger : Nat

/-- The `ledger_object` message of a successful response: echoed key bytes
and the object's canonical binary serialization. -/
structure LedgerObjectMsg where
  key : List Nat
  data : List Nat

/-- `GetLedgerEntryResponse`: unset fields are `none` (proto defaults). -/
structure GetLedgerEntryResponse where
  ledger_object : Option LedgerObjectMsg := none
  ledger : Option Nat := none

/-- Result of `RPC::ledgerFromRequest`: a snapshot, or an error whose cause
class is either argument-like (`rpcINVALID_PARAMS`) or lookup-like. -/
inductive LedgerSelResult
  | ok (store : Store)
  | err (invalidParams : Bool) (msg : String)

/-- Modelled from the spec: `uint256::fromVoidChecked`, the strict binary key
codec (not part of the sources under review): succeeds exactly on 32 bytes,
interpreted big-endian. -/
def bytesToNat (bs : List Nat) : Nat :=
  bs.foldl (fun acc b => acc * 256 + b) 0

/-- `uint256::fromVoidChecked` over the request's key bytes. -/
def fromVoidChecked (bs : List Nat) : Option Nat :=
  if bs.length = 32 then some (bytesToNat bs) else none

/-- `doLedgerEntryGrpc`: ledger selection errors map to a status by cause
class; a malformed key is invalid-argument; a missing object is not-found; a
found object is returned with no expected-type check. -/
def doLedgerEntryGrpc (sel : LedgerSelResult) (request : GrpcRequest) :
    GetLedgerEntryResponse × GrpcStatus :=
  match sel with
  | .err invalidParams msg =>
      if invalidParams then ({}, ⟨.INVALID_ARGUMENT, msg⟩)
      else ({}, ⟨.NOT_FOUND, msg⟩)
  | .ok store =>
      match fromVoidChecked request.key with
      | none => ({}, ⟨.INVALID_ARGUMENT, "index malformed"⟩)
      | some key =>
          match store key with
          | none => ({}, ⟨.NOT_FOUND, "object not found"⟩)
          | some sleNode =>
              ({ ledger_object := some ⟨request.key, sleNode.serial⟩
                 ledger := some request.ledger },
               ⟨.OK, ""⟩)

/-! ### Concrete instances used by counterexamples and witnesses -/

/-- A concrete environment: every external codec rejects, every derivation
returns the zero key. -/
def env0 : Env :=
  { parseBase58 := fun _ => none
    toCurrency := fun _ => none
    keyletAccount := fun _ => 0
    keyletDepositPreauth := fun _ _ => 0
    keyletPage := fun _ _ => 0
    keyletOwnerDir := fun _ => 0
    keyletEscrow := fun _ _ => 0
    keyletEmittedTxn := fun _ => 0
    keyletImportVlseq := fun _ => 0
    keyletOffer := fun _ _ => 0
    keyletUritoken := fun _ _ => 0
    keyletLine := fun _ _ _ => 0
    getTicketIndex := fun _ _ => 0
    keyletHook := fun _ => 0
    keyletHookDefinition := fun _ => 0
    keyletHookState := fun _ _ _ => 0 }

/-- The empty snapshot. -/
def store0 : Store := fun _ => none

/-- An account-root object stored at key 1. -/
def sleAcct : SLE := ⟨.ltACCOUNT_ROOT, .null, []⟩

/-- Snapshot holding `sleAcct` at key 1. -/
def storeAcct : Store := fun k => if k = 1 then some sleAcct else none

/-- A check object stored at key 2. -/
def sleCheck : SLE := ⟨.ltCHECK, .null, []⟩

/-- Snapshot holding `sleCheck` at key 2. -/
def storeCheck2 : Store := fun k => if k = 2 then some sleCheck else none

/-- 64 hex characters denoting key 1. -/
def hexKey1 : String :=
  "0000000000000000000000000000000000000000000000000000000000000001"

/-- 64 hex characters denoting key 2. -/
def hexKey2 : String :=
  "0000000000000000000000000000000000000000000000000000000000000002"

/-- 64 zero hex characters: the zero key. -/
def hexKey0 : String :=
  "0000000000000000000000000000000000000000000000000000000000000000"

/-- Request `{nft_page: <key 1>}`. -/
def reqNftPage : JVal := .obj [("nft_page", .str hexKey1)]

/-- Request `{nft_page: <key 2>}`. -/
def reqNft2 : JVal := .obj [("nft_page", .str hexKey2)]

/-- Request `{import_vlseq: {public_key: "ZZ"}}` — non-hex public key. -/
def reqImportBadHex : JVal :=
  .obj [("import_vlseq", .obj [("public_key", .str "ZZ")])]

/-- Request `{import_vlseq: {public_key: "00"}}` — decodable hex that is not
a recognized public-key encoding. -/
def reqImportBadKey : JVal :=
  .obj [("import_vlseq", .obj [("public_key", .str "00")])]

/-- Legacy request `{params: ["ZZ"]}` — one string element, invalid hex. -/
def reqLegacyBadHex : JVal := .obj [("params", .arr [.str "ZZ"])]

/-- Legacy request `{params: ["00"*32]}` — 64 zero hex characters. -/
def reqZeros : JVal := .obj [("params", .arr [.str hexKey0])]

/-- Request `{check: <key 1>}`. -/
def reqCheck1 : JVal := .obj [("check", .str hexKey1)]

/-- Request `{escrow: {}}` — escrow shape with the required sub-fields
omitted. -/
def reqEscrowEmpty : JVal := .obj [("escrow", .obj [])]

/-- Directory request supplying both `dir_root` and `owner`. -/
def reqDirBoth : JVal :=
  .obj [("directory", .obj [("dir_root", .str hexKey1), ("owner", .str "rOwner")])]

/-- Trust-line request whose two account strings are identical. -/
def reqRippleSame : JVal :=
  .obj [("ripple_state",
    .obj [("currency", .str "USD"), ("accounts", .arr [.str "rSame", .str "rSame"])])]

/-- A request carrying an `index` trigger plus a later `escrow` trigger and a
legacy `params` field. -/
def reqMulti : JVal :=
  .obj [("index", .str hexKey1), ("escrow", .str "ZZ"), ("params", .arr [.str "00"])]

/-- gRPC request whose key has the wrong byte length. -/
def grpcReqShort : GrpcRequest := ⟨[0], 5⟩

/-- gRPC request whose 32 key bytes denote key 1. -/
def grpcReq32 : GrpcRequest := ⟨List.replicate 31 0 ++ [1], 5⟩

/-! ### Shared helper lemmas -/

/-- A zero key skips resolution entirely: the response passes through. -/
theorem resolveStep_zero (params : JVal) (store : Store) (st : CState)
    (jv0 : Response) (hz : st.key = 0) :
    resolveStep params store st jv0 = jv0 := by
  simp [resolveStep, hz]

/-- Unfolding `doLedgerEntry` through a successful classification. -/
theorem doLedgerEntry_branch (env : Env) (req : JVal) (store : Store)
    (t : String) (st : CState)
    (hsel : firstTrigger req = some t)
    (hbr : branchFor env t (req.getJ t) = some st) :
    doLedgerEntry env req store =
      some (resolveStep req store st { error := st.err }) := by
  simp [doLedgerEntry, classify, hsel, hbr]

/-- A branch that rejects with a zero key yields exactly the error response. -/
theorem doLedgerEntry_branch_zero (env : Env) (req : JVal) (store : Store)
    (t : String) (st : CState)
    (hsel : firstTrigger req = some t)
    (hbr : branchFor env t (req.getJ t) = some st)
    (hz : st.key = 0) :
    doLedgerEntry env req store = some { error := st.err } := by
  rw [doLedgerEntry_branch env req store t st hsel hbr,
    resolveStep_zero req store st _ hz]

/-! ### Claim theorems -/

/-- C5: for every validated nonzero key, a missing object yields
`entryNotFound` (so never `unexpectedLedgerType`), and a found object whose
runtime type differs from a specific expected type yields
`unexpectedLedgerType` with no object content (no `node`, `node_binary` or
`index` field) in the response. -/
theorem nonzero_key_lookup_policy (env : Env) (req : JVal) (store : Store)
    (st : CState)
    (hc : classify env req = some st) (hk : st.key ≠ 0) :
    (store st.key = none →
      doLedgerEntry env req store =
        some { error := some "entryNotFound", node := none,
               node_binary := none, index := none }) ∧
    (∀ sle, store st.key = some sle → st.expected ≠ .ltANY →
      sle.type ≠ st.expected →
      doLedgerEntry env req store =
        some { error := some "unexpectedLedgerType", node := none,
               node_binary := none, index := none }) := by
  constructor
  · intro hn
    simp [doLedgerEntry, hc, resolveStep, hk, hn]
  · intro sle hs hA hT
    simp only [doLedgerEntry, hc, Option.map_some', Option.some.injEq]
    rw [resolveStep, if_pos hk, hs]
    simp only []
    rw [if_pos ⟨hA, fun he => hT he.symm⟩]

/-- C5 witness: the `check` shape at key 1 against an empty snapshot gives
`entryNotFound`; against a snapshot holding an account root at key 1 it gives
`unexpectedLedgerType`. -/
theorem nonzero_key_lookup_policy_witness :
    doLedgerEntry env0 reqCheck1 store0 =
      some { error := some "entryNotFound", node := none,
             node_binary := none, index := none } ∧
    doLedgerEntry env0 reqCheck1 storeAcct =
      some { error := some "unexpectedLedgerType", node := none,
             node_binary := none, index := none } := by
  refine ⟨(nonzero_key_lookup_policy env0 reqCheck1 store0
      ⟨1, .ltCHECK, none⟩ rfl (by decide)).1 rfl,
    (nonzero_key_lookup_policy env0 reqCheck1 storeAcct
      ⟨1, .ltCHECK, none⟩ rfl (by decide)).2 sleAcct rfl (by decide) (by decide)⟩

/-- C6: a zero resolved key performs no lookup — the response is exactly the
error already recorded (possibly none), with no `index`, `node` or
`node_binary` field, and is independent of the snapshot. -/
theorem zero_key_no_lookup (env : Env) (store store' : Store) (req : JVal)
    (st : CState)
    (hc : classify env req = some st) (hz : st.key = 0) :
    doLedgerEntry env req store =
      some { error := st.err, node := none, node_binary := none, index := none } ∧
    doLedgerEntry env req store = doLedgerEntry env req store' := by
  simp [doLedgerEntry, hc, resolveStep_zero _ _ _ _ hz]

/-- C6 witness: the legacy positional request of 64 zero hex characters
resolves to the zero key; the response carries no error, no `index` and no
`node` fields, and does not depend on the snapshot. -/
theorem zero_key_no_lookup_witness :
    doLedgerEntry env0 reqZeros storeAcct =
      some { error := none, node := none, node_binary := none, index := none } ∧
    doLedgerEntry env0 reqZeros storeAcct = doLedgerEntry env0 reqZeros store0 :=
  zero_key_no_lookup env0 storeAcct store0 reqZeros ⟨0, .ltANY, none⟩ rfl rfl

/-- C7: in the Directory shape with an object value, supplying both
`dir_root` and `owner` yields `malformedRequest`, and supplying neither does
too. -/
theorem directory_exclusive_paths_malformed (env : Env) (store : Store)
    (req : JVal) (fs : List (String × JVal))
    (hsel : firstTrigger req = some "directory")
    (hval : req.getJ "directory" = .obj fs)
    (hxor :
      ((JVal.obj fs).isMember "dir_root" = true ∧
        (JVal.obj fs).isMember "owner" = true) ∨
      ((JVal.obj fs).isMember "dir_root" = false ∧
        (JVal.obj fs).isMember "owner" = false)) :
    doLedgerEntry env req store = some { error := some "malformedRequest" } := by
  have hb : directoryBranch env (.obj fs) =
      ⟨0, .ltDIR_NODE, some "malformedRequest"⟩ := by
    rcases hxor with ⟨h1, h2⟩ | ⟨h1, h2⟩ <;>
      by_cases hsub : ((JVal.obj fs).isMember "sub_index"
          && !((JVal.obj fs).getJ "sub_index").isIntegral) = true <;>
      simp [directoryBranch, JVal.isNull, JVal.isObject, hsub, h1, h2]
  exact doLedgerEntry_branch_zero env req store "directory"
    ⟨0, .ltDIR_NODE, some "malformedRequest"⟩ hsel (by rw [hval]; exact congrArg some hb) rfl

/-- C7 witness: a directory object carrying both `dir_root` and `owner` is
rejected as `malformedRequest`. -/
theorem directory_exclusive_paths_malformed_witness :
    doLedgerEntry env0 reqDirBoth store0 =
      some { error := some "malformedRequest" } :=
  directory_exclusive_paths_malformed env0 store0 reqDirBoth
    [("dir_root", .str hexKey1), ("owner", .str "rOwner")] rfl rfl
    (Or.inl ⟨rfl, rfl⟩)

/-- C8: in the trust-line (`ripple_state`) shape, two identical account
strings in the `accounts` array always yield `malformedRequest`, whatever
either string would decode to. -/
theorem trustline_identical_accounts_malformed (env : Env) (store : Store)
    (req : JVal) (fs : List (String × JVal)) (a : String)
    (hsel : firstTrigger req = some "ripple_state")
    (hval : req.getJ "ripple_state" = .obj fs)
    (hacc : (JVal.obj fs).getJ "accounts" = .arr [.str a, .str a]) :
    doLedgerEntry env req store = some { error := some "malformedRequest" } := by
  have hb : rippleStateBranch env (.obj fs) =
      ⟨0, .ltRIPPLE_STATE, some "malformedRequest"⟩ := by
    by_cases hcur : (JVal.obj fs).isMember "currency" = true <;>
      simp [rippleStateBranch, JVal.isObject, hacc, hcur, JVal.isArray,
        JVal.size, JVal.atIndex, JVal.isString, JVal.asString]
  exact doLedgerEntry_branch_zero env req store "ripple_state"
    ⟨0, .ltRIPPLE_STATE, some "malformedRequest"⟩ hsel
    (by rw [hval]; exact congrArg some hb) rfl

/-- C8 witness: `{ripple_state: {currency: "USD", accounts: ["rSame",
"rSame"]}}` is rejected as `malformedRequest`. -/
theorem trustline_identical_accounts_malformed_witness :
    doLedgerEntry env0 reqRippleSame store0 =
      some { error := some "malformedRequest" } :=
  trustline_identical_accounts_malformed env0 store0 reqRippleSame
    [("currency", .str "USD"), ("accounts", .arr [.str "rSame", .str "rSame"])]
    "rSame" rfl rfl rfl

/-- C1: for every one of the 17 shapes, a request that selects the shape
with an object value omitting one of the shape's required sub-fields is
rejected as `malformedRequest`, with the error set and no key resolved — in
particular never a silent success with a zero key and no error.  (Shapes
whose `requiredSubfields` list is empty have no required sub-field to omit;
the directory shape's exclusive-or requirement is the subject of C7.) -/
theorem missing_required_subfield_malformed (env : Env) (store : Store)
    (req : JVal) (s : ShapeKind) (fs : List (String × JVal)) (f : String)
    (hsel : firstTrigger req = some (triggerField s))
    (hval : req.getJ (triggerField s) = .obj fs)
    (hf : f ∈ requiredSubfields s)
    (habs : (JVal.obj fs).isMember f = false) :
    doLedgerEntry env req store =
      some { error := some "malformedRequest", node := none,
             node_binary := none, index := none } := by
  cases s <;> simp only [triggerField] at hsel hval <;>
    simp only [requiredSubfields, List.mem_cons, List.not_mem_nil, or_false] at hf
  case depositPreauth =>
    refine doLedgerEntry_branch_zero env req store _
      ⟨0, .ltDEPOSIT_PREAUTH, some "malformedRequest"⟩ hsel ?_ rfl
    rw [hval]
    rcases hf with rfl | rfl <;>
      simp [branchFor, depositPreauthBranch, JVal.isObject, habs]
  case escrow =>
    refine doLedgerEntry_branch_zero env req store _
      ⟨0, .ltESCROW, some "malformedRequest"⟩ hsel ?_ rfl
    rw [hval]
    rcases hf with rfl | rfl <;>
      simp [branchFor, escrowBranch, JVal.isObject, habs]
  case importVlseq =>
    refine doLedgerEntry_branch_zero env req store _
      ⟨0, .ltIMPORT_VLSEQ, some "malformedRequest"⟩ hsel ?_ rfl
    rw [hval]
    rcases hf with rfl
    simp [branchFor, importVlseqBranch, JVal.isObject, habs]
  case offer =>
    refine doLedgerEntry_branch_zero env req store _
      ⟨0, .ltOFFER, some "malformedRequest"⟩ hsel ?_ rfl
    rw [hval]
    rcases hf with rfl | rfl <;>
      simp [branchFor, offerBranch, JVal.isObject, habs]
  case uriToken =>
    refine doLedgerEntry_branch_zero env req store _
      ⟨0, .ltURI_TOKEN, some "malformedRequest"⟩ hsel ?_ rfl
    rw [hval]
    rcases hf with rfl | rfl <;>
      simp [branchFor, uriTokenBranch, JVal.isObject, habs]
  case rippleState =>
    refine doLedgerEntry_branch_zero env req store _
      ⟨0, .ltRIPPLE_STATE, some "malformedRequest"⟩ hsel ?_ rfl
    rw [hval]
    rcases hf with rfl | rfl <;>
      simp [branchFor, rippleStateBranch, JVal.isObject, habs]
  case ticket =>
    refine doLedgerEntry_branch_zero env req store _
      ⟨0, .ltTICKET, some "malformedRequest"⟩ hsel ?_ rfl
    rw [hval]
    rcases hf with rfl | rfl <;>
      simp [branchFor, ticketBranch, JVal.isObject, habs]
  case hook =>
    refine doLedgerEntry_branch_zero env req store _
      ⟨0, .ltHOOK, some "malformedRequest"⟩ hsel ?_ rfl
    rw [hval]
    rcases hf with rfl
    simp [branchFor, hookBranch, JVal.isObject, habs]
  case hookState =>
    refine doLedgerEntry_branch_zero env req store _
      ⟨0, .ltHOOK_STATE, some "malformedRequest"⟩ hsel ?_ rfl
    rw [hval]
    rcases hf with rfl | rfl | rfl <;>
      simp [branchFor, hookStateBranch, JVal.isObject, habs]

/-- C1 witness: `{escrow: {}}` — the escrow shape with its required `owner`
sub-field omitted — is rejected as `malformedRequest`. -/
theorem missing_required_subfield_malformed_witness :
    doLedgerEntry env0 reqEscrowEmpty store0 =
      some { error := some "malformedRequest", node := none,
             node_binary := none, index := none } :=
  missing_required_subfield_malformed env0 store0 reqEscrowEmpty .escrow []
    "owner" rfl rfl (by decide) rfl

/-- Every shape branch records that shape's `expectedType` on every path. -/
theorem branchFor_expected (env : Env) (s : ShapeKind) (v : JVal) (st : CState)
    (h : branchFor env (triggerField s) v = some st) :
    st.expected = expectedOf s := by
  cases s <;>
    simp only [triggerField, branchFor, indexBranch, accountRootBranch, checkBranch,
      depositPreauthBranch, directoryBranch, escrowBranch, emittedTxnBranch,
      importVlseqBranch, offerBranch, paymentChannelBranch, uriTokenBranch,
      rippleStateBranch, ticketBranch, hookBranch, hookDefinitionBranch,
      hookStateBranch, nftPageBranch] at h <;>
    (repeat' split at h) <;>
    first
      | exact Option.noConfusion h
      | (injection h with h; subst h; simp [expectedOf])

/-- The legacy positional branch leaves `expectedType` at `ltANY`. -/
theorem legacyBranch_expected (req : JVal) : (legacyBranch req).expected = .ltANY := by
  unfold legacyBranch
  repeat' split
  all_goals rfl

/-- C2 counterexample: the claim asserts the NftPage shape records the "any"
expected type and returns a found object whatever its runtime type.  On the
concrete request `{nft_page: <key 1>}` the classifier records
`ltNFTOKEN_PAGE`, and with an account-root object stored at key 1 the
response is `unexpectedLedgerType` with no object content. -/
theorem nft_page_expected_type_counterexample :
    (classify env0 reqNftPage).map CState.expected = some .ltNFTOKEN_PAGE ∧
    LedgerEntryType.ltNFTOKEN_PAGE ≠ .ltANY ∧
    doLedgerEntry env0 reqNftPage storeAcct =
      some { error := some "unexpectedLedgerType", node := none,
             node_binary := none, index := none } :=
  ⟨rfl, by decide, rfl⟩

/-- C2 (amended): the recorded `ExpectedType` is the "any" type exactly for
ByIndex and LegacyPositional; every other shape — NftPage included — records
its specific expected object type, and for NftPage a found object of a
different runtime type yields `unexpectedLedgerType` rather than being
returned. -/
theorem expected_type_policy (env : Env) (req : JVal) :
    (∀ s st, firstTrigger req = some (triggerField s) →
      classify env req = some st → st.expected = expectedOf s) ∧
    (∀ st, firstTrigger req = none → classify env req = some st →
      st.expected = .ltANY) ∧
    (∀ s : ShapeKind, expectedOf s = .ltANY ↔ s = .byIndex) ∧
    (∀ store st sle, firstTrigger req = some "nft_page" →
      classify env req = some st → st.key ≠ 0 → store st.key = some sle →
      sle.type ≠ .ltNFTOKEN_PAGE →
      doLedgerEntry env req store =
        some { error := some "unexpectedLedgerType", node := none,
               node_binary := none, index := none }) := by
  refine ⟨?_, ?_, ?_, ?_⟩
  · intro s st hsel hcl
    simp only [classify, hsel] at hcl
    exact branchFor_expected env s _ st hcl
  · intro st hn hcl
    simp only [classify, hn, Option.some.injEq] at hcl
    rw [← hcl]
    exact legacyBranch_expected req
  · intro s
    cases s <;> simp [expectedOf]
  · intro store st sle hsel hcl hk hs hT
    have hexp : st.expected = .ltNFTOKEN_PAGE :=
      branchFor_expected env .nftPage (req.getJ "nft_page") st
        (by simpa [classify, hsel] using hcl)
    simp only [doLedgerEntry, hcl, Option.map_some', Option.some.injEq]
    rw [resolveStep, if_pos hk, hs]
    simp only []
    rw [if_pos ⟨by simp [hexp], by rw [hexp]; exact fun he => hT he.symm⟩]

/-- C2 (amended) witness: the `check` shape records `ltCHECK`; a
trigger-free request records `ltANY`; `ltANY` is recorded exactly by
ByIndex; an NftPage request finding a check object gets
`unexpectedLedgerType`. -/
theorem expected_type_policy_witness :
    ((⟨1, .ltCHECK, none⟩ : CState).expected = expectedOf .check) ∧
    ((⟨0, .ltANY, some "unknownOption"⟩ : CState).expected = .ltANY) ∧
    (expectedOf .byIndex = .ltANY ↔ ShapeKind.byIndex = .byIndex) ∧
    doLedgerEntry env0 reqNft2 storeCheck2 =
      some { error := some "unexpectedLedgerType", node := none,
             node_binary := none, index := none } := by
  refine ⟨(expected_type_policy env0 reqCheck1).1 .check ⟨1, .ltCHECK, none⟩ rfl rfl,
    (expected_type_policy env0 (JVal.obj [("foo", .str "x")])).2.1
      ⟨0, .ltANY, some "unknownOption"⟩ rfl rfl,
    (expected_type_policy env0 reqNft2).2.2.1 .byIndex,
    (expected_type_policy env0 reqNft2).2.2.2 storeCheck2
      ⟨2, .ltNFTOKEN_PAGE, none⟩ sleCheck rfl rfl (by decide) rfl (by decide)⟩

/-- C3: on `{import_vlseq: {public_key: s}}` the source hex-decodes `s` with
`strUnHex` and dereferences the resulting optional without any check.  When
`s` is not valid hex the dereference is undefined behavior (modelled `none`)
instead of the `malformedRequest` rejection the claim requires; when `s`
decodes but is not a recognized public-key encoding the rejection is
`malformedRequest` as claimed. -/
theorem import_vlseq_hex_failure_behavior :
    doLedgerEntry env0 reqImportBadHex store0 = none ∧
    doLedgerEntry env0 reqImportBadKey store0 =
      some { error := some "malformedRequest", node := none,
             node_binary := none, index := none } :=
  ⟨rfl, rfl⟩

/-- C4 counterexample: with no recognized trigger and a legacy `params`
array of one non-hex string, the claim predicts `unknownOption`, but the
code answers `malformedRequest`. -/
theorem legacy_nonhex_counterexample :
    doLedgerEntry env0 reqLegacyBadHex store0 =
      some { error := some "malformedRequest", node := none,
             node_binary := none, index := none } ∧
    (some "malformedRequest" : Option String) ≠ some "unknownOption" :=
  ⟨rfl, by decide⟩

/-- C4 (amended): with no recognized trigger field, a structurally absent or
malformed legacy form (no `params` array of exactly one string) yields
`unknownOption`; a legacy form whose single string element is not valid hex
yields `malformedRequest` instead. -/
theorem legacy_fallback_policy (env : Env) (store : Store) (req : JVal) :
    (firstTrigger req = none →
      (req.isMember "params" && (req.getJ "params").isArray
        && ((req.getJ "params").size == 1)
        && ((req.getJ "params").atIndex 0).isString) = false →
      doLedgerEntry env req store =
        some { error := some "unknownOption", node := none,
               node_binary := none, index := none }) ∧
    (∀ a, firstTrigger req = none → req.isMember "params" = true →
      req.getJ "params" = .arr [.str a] → parseHex256 a = none →
      doLedgerEntry env req store =
        some { error := some "malformedRequest", node := none,
               node_binary := none, index := none }) := by
  constructor
  · intro hn hcond
    simp [doLedgerEntry, classify, hn, legacyBranch, hcond, resolveStep]
  · intro a hn hmem harr hhex
    simp [doLedgerEntry, classify, hn, legacyBranch, hmem, harr, hhex,
      JVal.isArray, JVal.size, JVal.atIndex, JVal.isString, JVal.asString,
      resolveStep]

/-- C4 (amended) witness: a request with neither trigger nor legacy form
gets `unknownOption`; `{params: ["ZZ"]}` gets `malformedRequest`. -/
theorem legacy_fallback_policy_witness :
    doLedgerEntry env0 (JVal.obj [("bogus", .str "x")]) store0 =
      some { error := some "unknownOption", node := none,
             node_binary := none, index := none } ∧
    doLedgerEntry env0 reqLegacyBadHex store0 =
      some { error := some "malformedRequest", node := none,
             node_binary := none, index := none } :=
  ⟨(legacy_fallback_policy env0 store0 (JVal.obj [("bogus", .str "x")])).1 rfl rfl,
   (legacy_fallback_policy env0 store0 reqLegacyBadHex).2 "ZZ" rfl rfl rfl rfl⟩

/-- C9: on the binary protocol, a key of the wrong byte length is
invalid-argument with no payload; a well-formed key with no stored object is
not-found; a found object is returned whatever its runtime type, as a
payload of the object data, the echoed key and the echoed ledger selector;
ledger-selection failures map by cause class. -/
theorem grpc_entry_policy (store : Store) (request : GrpcRequest) :
    (request.key.length ≠ 32 →
      doLedgerEntryGrpc (.ok store) request =
        ({ ledger_object := none, ledger := none },
         ⟨.INVALID_ARGUMENT, "index malformed"⟩)) ∧
    (∀ k, fromVoidChecked request.key = some k → store k = none →
      doLedgerEntryGrpc (.ok store) request =
        ({ ledger_object := none, ledger := none },
         ⟨.NOT_FOUND, "object not found"⟩)) ∧
    (∀ k sle, fromVoidChecked request.key = some k → store k = some sle →
      doLedgerEntryGrpc (.ok store) request =
        ({ ledger_object := some ⟨request.key, sle.serial⟩,
           ledger := some request.ledger },
         ⟨.OK, ""⟩)) ∧
    (∀ b msg, doLedgerEntryGrpc (.err b msg) request =
        ({ ledger_object := none, ledger := none },
         ⟨if b then .INVALID_ARGUMENT else .NOT_FOUND, msg⟩)) := by
  refine ⟨?_, ?_, ?_, ?_⟩
  · intro hlen
    simp [doLedgerEntryGrpc, fromVoidChecked, hlen]
  · intro k hk hn
    simp [doLedgerEntryGrpc, hk, hn]
  · intro k sle hk hs
    simp [doLedgerEntryGrpc, hk, hs]
  · intro b msg
    cases b <;> simp [doLedgerEntryGrpc]

/-- C9 witness: a 1-byte key is invalid-argument with no payload; the
32-byte key 1 is not-found on the empty snapshot and returns the stored
account-root object — despite no expected type — when present. -/
theorem grpc_entry_policy_witness :
    doLedgerEntryGrpc (.ok store0) grpcReqShort =
      ({ ledger_object := none, ledger := none },
       ⟨.INVALID_ARGUMENT, "index malformed"⟩) ∧
    doLedgerEntryGrpc (.ok store0) grpcReq32 =
      ({ ledger_object := none, ledger := none },
       ⟨.NOT_FOUND, "object not found"⟩) ∧
    doLedgerEntryGrpc (.ok storeAcct) grpcReq32 =
      ({ ledger_object := some ⟨grpcReq32.key, sleAcct.serial⟩,
         ledger := some grpcReq32.ledger },
       ⟨.OK, ""⟩) :=
  ⟨(grpc_entry_policy store0 grpcReqShort).1 (by decide),
   (grpc_entry_policy store0 grpcReq32).2.1 1 (by decide) rfl,
   (grpc_entry_policy storeAcct grpcReq32).2.2.1 1 sleAcct (by decide) rfl⟩

/-- `any` over a filtered association list, in terms of the original list. -/
theorem any_filter_eq (fs : List (String × JVal)) (q : String → Bool)
    (k : String) :
    ((fs.filter (fun kv => q kv.1)).any (fun kv => kv.1 == k))
      = (fs.any (fun kv => kv.1 == k) && q k) := by
  induction fs with
  | nil => simp
  | cons a l ih =>
    by_cases hk : a.1 = k
    · subst hk
      by_cases hq : q a.1 = true <;>
        simp [List.filter_cons, List.any_cons, hq, ih]
    · have hbk : (a.1 == k) = false := beq_eq_false_iff_ne.mpr hk
      by_cases hq : q a.1 = true <;>
        simp [List.filter_cons, List.any_cons, hq, hbk, ih]

/-- Field presence after stripping. -/
theorem isMember_stripExtra (fs : List (String × JVal)) (t k : String) :
    (stripExtra (.obj fs) t).isMember k
      = ((JVal.obj fs).isMember k && keepField t k) := by
  simp only [stripExtra, JVal.isMember]
  rw [any_filter_eq]

/-- `find?` commutes with a filter that keeps everything the search accepts. -/
theorem find?_filter_keep {α} (l : List α) (q r : α → Bool)
    (h : ∀ x, r x = true → q x = true) :
    (l.filter q).find? r = l.find? r := by
  induction l with
  | nil => simp
  | cons a l ih =>
    by_cases hq : q a = true
    · by_cases hr : r a = true <;>
        simp [List.filter_cons, hq, List.find?_cons, hr, ih]
    · have hq' : q a = false := by revert hq; cases q a <;> simp
      have hr : r a = false := by
        cases hra : r a
        · rfl
        · rw [h a hra] at hq'; cases hq'
      simp [List.filter_cons, hq', List.find?_cons, hr, ih]

/-- Field values survive stripping for kept keys. -/
theorem getJ_stripExtra (fs : List (String × JVal)) (t k : String)
    (hk : keepField t k = true) :
    (stripExtra (.obj fs) t).getJ k = (JVal.obj fs).getJ k := by
  simp only [stripExtra, JVal.getJ]
  rw [find?_filter_keep]
  intro x hx
  have hx' : x.1 = k := by simpa using hx
  rw [hx']
  exact hk

/-- Restricting the predicate of a successful `find?` to its found element
preserves the result. -/
theorem find?_restrict (l : List String) (p q : String → Bool) (t : String) :
    l.find? p = some t → (∀ u ∈ l, q u = ((u == t) && p u)) →
    l.find? q = some t := by
  induction l with
  | nil => intro h _; simp at h
  | cons a l ih =>
    intro h hq
    by_cases hpa : p a = true
    · simp only [List.find?_cons, hpa] at h
      injection h with h
      subst h
      have hqa : q a = true := by
        rw [hq a (List.mem_cons_self a l), hpa, beq_self_eq_true]
        rfl
      simp [List.find?_cons, hqa]
    · have hpa' : p a = false := by revert hpa; cases p a <;> simp
      simp only [List.find?_cons, hpa'] at h
      have hqa : q a = false := by
        rw [hq a (List.mem_cons_self a l), hpa', Bool.and_false]
      simp only [List.find?_cons, hqa]
      exact ih h (fun u hu => hq u (List.mem_cons_of_mem a hu))

/-- `keepField` keeps the selected trigger itself. -/
theorem keepField_self (t : String) : keepField t t = true := by
  simp [keepField]

/-- `keepField` always keeps the `binary` flag. -/
theorem keepField_binary (t : String) : keepField t "binary" = true := by
  have h : decide (("binary" : String) ∈ triggerOrder) = false := by decide
  simp [keepField, h]

/-- Stripping preserves the first present trigger. -/
theorem firstTrigger_stripExtra (fs : List (String × JVal)) (t : String)
    (h : firstTrigger (.obj fs) = some t) :
    firstTrigger (stripExtra (.obj fs) t) = some t := by
  refine find?_restrict triggerOrder _ _ t h ?_
  intro u hu
  rw [isMember_stripExtra]
  have hc : decide (u ∈ triggerOrder) = true := decide_eq_true hu
  simp [keepField, hc, Bool.and_comm]

/-- `resolveStep` reads the request only through the `binary` flag. -/
theorem resolveStep_params_congr (p p' : JVal) (store : Store) (st : CState)
    (r : Response)
    (h1 : p.isMember "binary" = p'.isMember "binary")
    (h2 : p.getJ "binary" = p'.getJ "binary") :
    resolveStep p store st r = resolveStep p' store st r := by
  simp [resolveStep, h1, h2]

/-- C10: classification selects the shape of the first present trigger field
in the source's fixed order (`triggerOrder`); every later trigger field and
the legacy positional `params` field are ignored, so the outcome equals that
of the same request with those extra fields removed. -/
theorem trigger_precedence_strip (env : Env) (store : Store) (req : JVal)
    (t : String)
    (h : firstTrigger req = some t) :
    firstTrigger (stripExtra req t) = some t ∧
    doLedgerEntry env req store = doLedgerEntry env (stripExtra req t) store := by
  cases req
  case obj fs =>
    refine ⟨firstTrigger_stripExtra fs t h, ?_⟩
    have hget : (stripExtra (.obj fs) t).getJ t = (JVal.obj fs).getJ t :=
      getJ_stripExtra fs t t (keepField_self t)
    have hft := firstTrigger_stripExtra fs t h
    simp only [doLedgerEntry, classify, h, hft, hget]
    cases hbr : branchFor env t ((JVal.obj fs).getJ t) with
    | none => simp [hbr]
    | some st =>
      simp only [hbr, Option.map_some']
      exact congrArg some (resolveStep_params_congr _ _ store st _
        ((isMember_stripExtra fs t "binary").trans
          (by rw [keepField_binary, Bool.and_true])).symm
        (getJ_stripExtra fs t "binary" (keepField_binary t)).symm)
  all_goals simp [firstTrigger, triggerOrder, JVal.isMember, List.find?] at h

/-- C10 witness: on a request carrying `index` plus a later `escrow` trigger
and a legacy `params` field, the outcome equals that of the stripped request
`{index: <key 1>}`, and stripping removed exactly the extra fields. -/
theorem trigger_precedence_strip_witness :
    firstTrigger (stripExtra reqMulti "index") = some "index" ∧
    doLedgerEntry env0 reqMulti store0 =
      doLedgerEntry env0 (stripExtra reqMulti "index") store0 :=
  trigger_precedence_strip env0 store0 reqMulti "index" rfl

end LedgerEntry
